import Mathlib

/-!
Shallow embedding of the Transmission-DH torrent-cleanup service.

Sources embedded here:
* src/src/handler.ts        — domain types, eligibility filters, removal rules
* src/unnamed/part_000      — TransmissionClient (client.ts): rpc session
                              negotiation, getTorrents retry loop, removeTorrents
* src/src/config.ts         — the Config record (only the resolved values)

Modelling conventions:
* JS numbers are modelled as ℚ (ratios, percentages, hours) or Int (ids,
  timestamps); NaN is not modelled.
* A JSON field that may be null/absent is an Option; the JS defaulting
  pattern `x || d` is `jsNumOr` / `jsStrOr` / `jsListOr`, which are faithful
  to JS truthiness (0 and the empty string are falsy).
* Code that can throw returns Except String / Except RpcError.
* Network I/O is an oracle: a list of per-transmission outcomes consumed in
  order.  Logging is not modelled; sleeps are recorded as a trace of
  millisecond durations so retry pacing is visible.
-/

namespace TransmissionDH

/-- Substring test on character lists, the semantics of JS
`String.prototype.includes`. -/
def listContainsSub (l pat : List Char) : Bool :=
  pat.isPrefixOf l ||
    match l with
    | [] => false
    | _ :: rest => listContainsSub rest pat

/-- `strContains s pat` models JS `s.includes(pat)`. -/
def strContains (s pat : String) : Bool :=
  listContainsSub s.data pat.data

/-- JS `String.prototype.toLowerCase`, restricted to the ASCII casing the
labels and hostnames of this system use. -/
def toLowerStr (s : String) : String :=
  String.mk (s.data.map Char.toLower)

/-- Split a character list at the first occurrence of `pat`, returning the
parts before and after it; none when `pat` does not occur. -/
def splitFirst (pat : List Char) : List Char → Option (List Char × List Char)
  | [] => none
  | c :: rest =>
    if pat.isPrefixOf (c :: rest) then some ([], (c :: rest).drop pat.length)
    else
      match splitFirst pat rest with
      | none => none
      | some (pre, post) => some (c :: pre, post)

/-- Split a character list on a separator character (like JS split). -/
def splitOnChar (sep : Char) : List Char → List (List Char)
  | [] => [[]]
  | c :: rest =>
    let r := splitOnChar sep rest
    if c = sep then [] :: r
    else
      match r with
      | [] => [[c]]
      | h :: t => (c :: h) :: t

/-- JS `x || d` for a nullable number: null/absent and 0 are falsy. -/
def jsNumOr (v : Option ℚ) (d : ℚ) : ℚ :=
  match v with
  | none => d
  | some q => if q = 0 then d else q

/-- JS `x || d` for a nullable integer field: null/absent and 0 are falsy. -/
def jsIntOr (v : Option Int) (d : Int) : Int :=
  match v with
  | none => d
  | some n => if n = 0 then d else n

/-- JS `x || d` for a nullable string: null/absent and "" are falsy. -/
def jsStrOr (v : Option String) (d : String) : String :=
  match v with
  | none => d
  | some s => if s = "" then d else s

/-- JS `x || d` for a nullable list: null/absent is falsy, any array truthy. -/
def jsListOr {α : Type} (v : Option (List α)) (d : List α) : List α :=
  match v with
  | none => d
  | some l => l

/-- Resolved configuration consumed by the handler and client
(src/src/config.ts, Config type).  Only the fields the core logic reads. -/
structure Config where
  allowedLabels : List String
  excludedTrackers : List String
  maxRatio : ℚ
  deadRetentionHours : ℚ
  maxAgeHours : ℚ
  dryRun : Bool
  deriving Repr, DecidableEq

/-- Hydrated torrent snapshot (src/src/handler.ts, Torrent). -/
structure Torrent where
  id : Int
  name : String
  percentDone : ℚ
  uploadRatio : ℚ
  ageHours : ℚ
  label : String
  downloadDir : String
  trackerUrls : List String
  error : Int
  errorString : String
  deriving Repr, DecidableEq

/-- Removal reason tags (src/src/handler.ts, RemovalReason). -/
inductive RemovalReason where
  | ratio
  | ttl
  | dead
  deriving Repr, DecidableEq

/-- A removal decision (src/src/handler.ts, RemovalCandidate). -/
structure RemovalCandidate where
  torrent : Torrent
  reason : RemovalReason
  deriving Repr, DecidableEq

/-- src/src/handler.ts lines 160-169, Handler.checkRatioRule. -/
def checkRatioRule (cfg : Config) (torrent : Torrent) : Option RemovalCandidate :=
  if torrent.uploadRatio = -1 ∨ torrent.uploadRatio < cfg.maxRatio then
    none
  else
    some { torrent := torrent, reason := RemovalReason.ratio }

/-- src/src/handler.ts lines 171-183, Handler.checkDeadRule. -/
def checkDeadRule (cfg : Config) (torrent : Torrent) : Option RemovalCandidate :=
  let isIncomplete := decide (torrent.percentDone < 100)
  let isPastDeadRetention := decide (torrent.ageHours ≥ cfg.deadRetentionHours)
  if !isIncomplete || !isPastDeadRetention then
    none
  else
    some { torrent := torrent, reason := RemovalReason.dead }

/-- src/src/handler.ts lines 185-194, Handler.checkTtlRule. -/
def checkTtlRule (cfg : Config) (torrent : Torrent) : Option RemovalCandidate :=
  if torrent.ageHours < cfg.maxAgeHours then
    none
  else
    some { torrent := torrent, reason := RemovalReason.ttl }

/-- src/src/handler.ts lines 152-158, Handler.evaluate.  The JS `a || b || c`
over object-or-null values is the first non-null result, embedded with
Option.orElse (short-circuiting, like the source). -/
def evaluate (cfg : Config) (torrent : Torrent) : List RemovalCandidate :=
  let result := (checkRatioRule cfg torrent).orElse fun _ =>
    (checkDeadRule cfg torrent).orElse fun _ => checkTtlRule cfg torrent
  match result with
  | some r => [r]
  | none => []

/-- Model of WHATWG `new URL(u).hostname` as used at
src/src/handler.ts line 144 (a platform builtin, not repository code):
parsing succeeds when the string has a nonempty scheme followed by "://" and
a nonempty host; the host runs to the first of / : ? #.  The empty string
and scheme-less strings fail to parse (the JS constructor throws TypeError),
returning none here. -/
def urlHostname (u : String) : Option String :=
  match splitFirst "://".data u.data with
  | none => none
  | some (scheme, remainder) =>
    if scheme = [] then none
    else
      let host := remainder.takeWhile fun c =>
        c ≠ '/' && c ≠ ':' && c ≠ '?' && c ≠ '#'
      if host = [] then none else some (String.mk host)

/-- Model of Node `path.basename` as used at src/src/handler.ts line 119
(a platform builtin): the last nonempty slash-separated segment, "" when the
path has none. -/
def pathBasename (p : String) : String :=
  String.mk (((splitOnChar '/' p.data).filter fun s => s ≠ []).getLastD [])

/-- src/src/handler.ts lines 135-138, Handler.isAllowedLabel. -/
def isAllowedLabel (cfg : Config) (torrent : Torrent) : Bool :=
  cfg.allowedLabels.contains (toLowerStr torrent.label)

/-- Loop body of Handler.hasExcludedTracker (src/src/handler.ts
lines 143-148): each announce URL is parsed in order; a parse failure
is the TypeError the JS URL constructor throws; a host containing any
excluded token returns true immediately. -/
def hasExcludedTrackerLoop (cfg : Config) : List String → Except String Bool
  | [] => Except.ok false
  | url :: rest =>
    match urlHostname url with
    | none => Except.error ("Invalid URL: " ++ url)
    | some h =>
      let host := toLowerStr h
      if cfg.excludedTrackers.any (fun tok => strContains host tok) then
        Except.ok true
      else
        hasExcludedTrackerLoop cfg rest

/-- src/src/handler.ts lines 140-150, Handler.hasExcludedTracker.  Returns
in Except because `new URL(url)` throws on an unparsable string. -/
def hasExcludedTracker (cfg : Config) (torrent : Torrent) : Except String Bool :=
  if cfg.excludedTrackers.length = 0 then Except.ok false
  else hasExcludedTrackerLoop cfg torrent.trackerUrls

/-- JS Array.prototype.filter over a callback that may throw: elements are
visited left to right and the first exception aborts the whole filter.
Used to embed the filter call at src/src/handler.ts line 64. -/
def filterE {α ε : Type} (p : α → Except ε Bool) : List α → Except ε (List α)
  | [] => Except.ok []
  | a :: as => do
    let b ← p a
    let rest ← filterE p as
    pure (if b then a :: rest else rest)

/-- src/src/handler.ts lines 63-64 of Handler.run: the label filter then the
tracker-exclusion filter. -/
def eligibleSet (cfg : Config) (hydrated : List Torrent) : Except String (List Torrent) :=
  let byLabel := hydrated.filter (isAllowedLabel cfg)
  filterE (fun t => do
    let ex ← hasExcludedTracker cfg t
    pure (!ex)) byLabel

/-- One removal RPC as observed by the daemon (torrent-remove arguments,
src/unnamed/part_000 lines 203-208). -/
structure RemoveCall where
  ids : List Int
  deleteLocalData : Bool
  deriving Repr, DecidableEq

/-- src/src/handler.ts lines 89-97, Handler.performRemoval, abstracted to the
trace of removeTorrents calls it issues: none under dry-run, otherwise one
call with deleteLocalData set to true. -/
def performRemoval (cfg : Config) (ids : List Int) : List RemoveCall :=
  if cfg.dryRun then []
  else [{ ids := ids, deleteLocalData := true }]

/-- src/src/handler.ts lines 63-82 of Handler.run, from the hydrated torrent
list to the trace of removal calls: filter by label and tracker, evaluate
each eligible torrent, return early when there is no candidate, otherwise
call performRemoval with the candidate ids. -/
def runRemoveCalls (cfg : Config) (hydrated : List Torrent) :
    Except String (List RemoveCall) := do
  let eligible ← eligibleSet cfg hydrated
  let candidates := (eligible.map (evaluate cfg)).flatten
  if candidates.length = 0 then
    pure []
  else
    pure (performRemoval cfg (candidates.map fun c => c.torrent.id))

/-- Raw tracker entry after client-side defaulting
(src/unnamed/part_000, RawTorrent.trackers). -/
structure RawTracker where
  announce : String
  id : Int
  scrape : String
  tier : Int
  deriving Repr, DecidableEq

/-- Raw torrent after client-side defaulting (src/unnamed/part_000,
RawTorrent). -/
structure RawTorrent where
  id : Int
  name : String
  percentDone : ℚ
  uploadRatio : ℚ
  addedDate : Int
  downloadDir : String
  labels : List String
  error : Int
  errorString : String
  trackers : List RawTracker
  deriving Repr, DecidableEq

/-- Tracker entry as it appears in the daemon JSON, every field nullable. -/
structure JsonTracker where
  announce : Option String
  id : Option Int
  scrape : Option String
  tier : Option Int
  deriving Repr, DecidableEq

/-- Torrent entry as it appears in the daemon JSON; the fields the defaulting
at src/unnamed/part_000 lines 150-166 guards are nullable. -/
structure JsonTorrent where
  id : Int
  name : String
  percentDone : Option ℚ
  uploadRatio : Option ℚ
  addedDate : Option Int
  downloadDir : Option String
  labels : Option (List String)
  error : Option Int
  errorString : Option String
  trackers : Option (List JsonTracker)
  deriving Repr, DecidableEq

/-- The `arguments` object of a torrent-get response. -/
structure TorrentGetPayload where
  torrents : Option (List JsonTorrent)
  deriving Repr, DecidableEq

/-- src/unnamed/part_000 lines 160-165: per-tracker `||` defaulting. -/
def defaultTracker (tr : JsonTracker) : RawTracker :=
  { announce := jsStrOr tr.announce ""
    id := jsIntOr tr.id 0
    scrape := jsStrOr tr.scrape ""
    tier := jsIntOr tr.tier 0 }

/-- src/unnamed/part_000 lines 150-166: per-torrent `|| ` defaulting applied
to every fetched torrent.  `id` and `name` are copied without a default,
as in the source. -/
def defaultTorrent (t : JsonTorrent) : RawTorrent :=
  { id := t.id
    name := t.name
    percentDone := jsNumOr t.percentDone 0
    uploadRatio := jsNumOr t.uploadRatio 0
    addedDate := jsIntOr t.addedDate 0
    downloadDir := jsStrOr t.downloadDir ""
    labels := jsListOr t.labels []
    error := jsIntOr t.error 0
    errorString := jsStrOr t.errorString ""
    trackers := (jsListOr t.trackers []).map defaultTracker }

deriving instance DecidableEq for Except

/-- Errors the client can raise.  The rpc catch block (part_000 lines
125-128) rewraps every message with the prefix "Transmission RPC call
failed: "; since the retry classifier is substring-based and the prefix
holds none of its tokens, repeated rewrapping through recursive rpc calls
is not tracked beyond one prefix in `RpcError.message`. -/
inductive RpcError where
  | fetchError (msg : String)
  | apiRequestFailed (status : Nat) (statusText : String)
  | rpcResultError (result : String)
  | sessionNegotiationFailed
  | typeError (msg : String)
  deriving Repr, DecidableEq

/-- The message string carried by each error, following the Error
constructions in part_000 (lines 108, 115, 121, 127). -/
def RpcError.message : RpcError → String
  | RpcError.fetchError m =>
      "Transmission RPC call failed: " ++ m
  | RpcError.apiRequestFailed status statusText =>
      "Transmission RPC call failed: API request failed: [" ++
        toString status ++ "] " ++ statusText
  | RpcError.rpcResultError result =>
      "Transmission RPC call failed: RPC error: " ++ result
  | RpcError.sessionNegotiationFailed =>
      "Transmission RPC call failed: " ++
        "Failed to negotiate Transmission session after multiple attempts (409)."
  | RpcError.typeError m => m

/-- The connectivity classification of part_000 lines 176-183:
`message.includes(...)` over the six tokens. -/
def connectivityCheck (message : String) : Bool :=
  strContains message "ENOTFOUND" ||
  strContains message "ECONNREFUSED" ||
  strContains message "Connect timeout" ||
  strContains message "getaddrinfo ENOTFOUND" ||
  strContains message "fetch failed" ||
  strContains message "ECONNRESET"

/-- An HTTP response as the client observes it: status code, the
X-Transmission-Session-Id response header when present, and the parsed
JSON body (result string plus optional arguments). -/
structure HttpResponse where
  status : Nat
  statusText : String
  sessionHeader : Option String
  result : String
  arguments : Option TorrentGetPayload
  deriving Repr, DecidableEq

/-- One network transmission outcome: either fetch itself rejects
(connectivity failure) or a response arrives. -/
inductive FetchOutcome where
  | throws (msg : String)
  | responds (r : HttpResponse)
  deriving Repr, DecidableEq

/-- Mutable client state: the held session token (part_000 line 44) plus
the oracle of future network outcomes, consumed one per transmission. -/
structure ClientState where
  sessionId : Option String
  net : List FetchOutcome
  deriving Repr, DecidableEq

/-- `response.ok`: status in [200, 300). -/
def responseOk (status : Nat) : Bool :=
  decide (200 ≤ status) && decide (status < 300)

/-- Result of one rpc call: the outcome, the state after it, and the trace
of session tokens attached to each transmission (header set at part_000
lines 87-89). -/
structure RpcReturn where
  res : Except RpcError (Option TorrentGetPayload)
  state : ClientState
  sentTokens : List (Option String)
  deriving Repr, DecidableEq

/-- src/unnamed/part_000 lines 72-129, TransmissionClient.rpc, with
`allowedRetrans = 2 - retryCount` so the source guard `retryCount >= 2`
is `allowedRetrans = 0`.  Token capture mirrors lines 100-112: on a 409 or
on any response carrying the session header, a present header value is
stored; a 409 retransmits the same call (or fails the negotiation once the
bound is spent); then non-2xx and non-"success" results are fatal. -/
def rpcGo (allowedRetrans : Nat) (st : ClientState) : RpcReturn :=
  let sent := st.sessionId
  match st.net with
  | [] =>
      { res := Except.error (RpcError.fetchError "fetch failed")
        state := { sessionId := st.sessionId, net := [] }
        sentTokens := [sent] }
  | FetchOutcome.throws m :: rest =>
      { res := Except.error (RpcError.fetchError m)
        state := { sessionId := st.sessionId, net := rest }
        sentTokens := [sent] }
  | FetchOutcome.responds r :: rest =>
      let sid1 :=
        if r.status == 409 || r.sessionHeader.isSome then
          match r.sessionHeader with
          | some t => some t
          | none => st.sessionId
        else st.sessionId
      if r.status == 409 then
        match allowedRetrans with
        | 0 =>
            { res := Except.error RpcError.sessionNegotiationFailed
              state := { sessionId := sid1, net := rest }
              sentTokens := [sent] }
        | n + 1 =>
            let k := rpcGo n { sessionId := sid1, net := rest }
            { res := k.res, state := k.state, sentTokens := sent :: k.sentTokens }
      else if !responseOk r.status then
        { res := Except.error (RpcError.apiRequestFailed r.status r.statusText)
          state := { sessionId := sid1, net := rest }
          sentTokens := [sent] }
      else if r.result ≠ "success" then
        { res := Except.error (RpcError.rpcResultError r.result)
          state := { sessionId := sid1, net := rest }
          sentTokens := [sent] }
      else
        { res := Except.ok r.arguments
          state := { sessionId := sid1, net := rest }
          sentTokens := [sent] }

/-- One rpc call as the rest of the client uses it: retryCount starts at 0,
so two retransmissions are allowed. -/
def rpc (st : ClientState) : RpcReturn := rpcGo 2 st

/-- Result of a getTorrents call: outcome, final state, number of attempts
made, and the trace of sleeps (milliseconds) between attempts. -/
structure GetTorrentsReturn where
  res : Except RpcError (List RawTorrent)
  state : ClientState
  attempts : Nat
  sleepsMs : List Nat
  deriving Repr, DecidableEq

/-- src/unnamed/part_000 lines 131-201, TransmissionClient.getTorrents:
the attempt loop with `remaining` the fuel left after the current attempt
(attempt number = 30 - remaining, initial fuel 30).  On a successful rpc
whose arguments are absent, `response.torrents` is a TypeError, raised
inside the try and handled by the same catch.  The catch classifies the
message for logging only: every class sleeps 1000 ms and retries while
attempt < 30, and the error of attempt 30 propagates (lines 174-198). -/
def getTorrentsGo : Nat → ClientState → GetTorrentsReturn
  | 0, st =>
      { res := Except.error
          (RpcError.fetchError "Failed to connect to Transmission after 30 attempts")
        state := st, attempts := 0, sleepsMs := [] }
  | remaining + 1, st =>
      let attempt := 30 - remaining
      let k := rpc st
      let retryIt : Unit → GetTorrentsReturn := fun _ =>
        let next := getTorrentsGo remaining k.state
        { res := next.res, state := next.state
          attempts := next.attempts + 1, sleepsMs := 1000 :: next.sleepsMs }
      match k.res with
      | Except.ok none =>
          let e := RpcError.typeError
            "Cannot read properties of undefined (reading torrents)"
          if remaining = 0 then
            { res := Except.error e, state := k.state, attempts := 1, sleepsMs := [] }
          else retryIt ()
      | Except.ok (some payload) =>
          { res := Except.ok ((jsListOr payload.torrents []).map defaultTorrent)
            state := k.state, attempts := 1, sleepsMs := [] }
      | Except.error e =>
          let conn := connectivityCheck e.message
          if conn && decide (2 ≤ attempt) && decide (attempt ≤ 29) then
            retryIt ()
          else if remaining = 0 then
            { res := Except.error e, state := k.state, attempts := 1, sleepsMs := [] }
          else retryIt ()

/-- TransmissionClient.getTorrents: 30 attempts total. -/
def getTorrents (st : ClientState) : GetTorrentsReturn := getTorrentsGo 30 st

/-- JS `x || d` for a number that is already present (hydrate re-applies
the defaulting): 0 is falsy. -/
def numOr (q d : ℚ) : ℚ := if q = 0 then d else q

/-- JS `x || d` for a present integer. -/
def intOr (n d : Int) : Int := if n = 0 then d else n

/-- JS `x || d` for a present string: "" is falsy. -/
def strOr (s d : String) : String := if s = "" then d else s

/-- src/src/handler.ts lines 112-133, Handler.hydrate.  `nowSeconds` is the
floor of Date.now()/1000 at hydration time. -/
def hydrate (nowSeconds : Int) (raw : RawTorrent) : Torrent :=
  let ageHours : ℚ := ((nowSeconds : ℚ) - (raw.addedDate : ℚ)) / 3600
  let label :=
    if raw.labels.length > 0 then raw.labels.headD ""
    else pathBasename (strOr raw.downloadDir "")
  { id := raw.id
    name := raw.name
    percentDone := numOr raw.percentDone 0 * 100
    uploadRatio := numOr raw.uploadRatio 0
    ageHours := ageHours
    label := label
    downloadDir := strOr raw.downloadDir ""
    trackerUrls := raw.trackers.map fun t => strOr t.announce ""
    error := intOr raw.error 0
    errorString := strOr raw.errorString "" }

/-- Witness config for the rule-engine theorems: every rule threshold is
reachable. -/
def wcfg : Config :=
  { allowedLabels := ["radarr", "sonarr"]
    excludedTrackers := []
    maxRatio := 2
    deadRetentionHours := 12
    maxAgeHours := 120
    dryRun := false }

/-- Witness torrent matching all three rules at `wcfg`. -/
def wtorrentAll : Torrent :=
  { id := 7, name := "w", percentDone := 50, uploadRatio := 3, ageHours := 200
    label := "radarr", downloadDir := "/d/radarr", trackerUrls := []
    error := 0, errorString := "" }

/-- Configuration whose maxRatio is the ratio sentinel itself; together with
`tNegRatio` it refutes the unguarded equality clause of C2. -/
def cfgNegRatio : Config :=
  { allowedLabels := [], excludedTrackers := [], maxRatio := -1
    deadRetentionHours := 12, maxAgeHours := 120, dryRun := false }

/-- Torrent whose uploadRatio equals cfgNegRatio.maxRatio exactly. -/
def tNegRatio : Torrent :=
  { id := 1, name := "n", percentDone := 100, uploadRatio := -1, ageHours := 0
    label := "", downloadDir := "", trackerUrls := [], error := 0, errorString := "" }

/-- Witness config with a nonempty exclusion list. -/
def wcfgEx : Config := { wcfg with excludedTrackers := ["bad.example"] }

/-- Witness torrent with a parsable, non-excluded tracker URL. -/
def wtorrentTracked : Torrent :=
  { wtorrentAll with trackerUrls := ["http://ok.example/announce"] }

/-- Witness torrent matching no rule at wcfg. -/
def wtorrentFresh : Torrent :=
  { id := 9, name := "f", percentDone := 100, uploadRatio := 1, ageHours := 1
    label := "radarr", downloadDir := "/d/radarr", trackerUrls := []
    error := 0, errorString := "" }

/-! ## C8: unparsable announce URLs -/

/-- Torrent whose tracker list holds a matching URL before the unparsable
empty string. -/
def tMaskedBadUrl : Torrent :=
  { id := 3, name := "m", percentDone := 100, uploadRatio := 0, ageHours := 1
    label := "radarr", downloadDir := "/d/radarr"
    trackerUrls := ["http://bad.example/announce", ""]
    error := 0, errorString := "" }

/-- Torrent whose first tracker URL is the unparsable empty string. -/
def tBadUrlFirst : Torrent :=
  { tMaskedBadUrl with trackerUrls := ["", "http://bad.example/announce"] }

/-- A raw daemon torrent carrying the -1 ratio sentinel. -/
def jSentinel : JsonTorrent :=
  { id := 4, name := "s", percentDone := some 1, uploadRatio := some (-1)
    addedDate := some 0, downloadDir := some "/d/radarr", labels := some ["radarr"]
    error := none, errorString := none, trackers := none }

/-- An empty successful torrent-get payload for client scenarios. -/
def wOkPayload : TorrentGetPayload := { torrents := some [] }

/-- A plain 200/"success" response carrying wOkPayload. -/
def wOkResp : HttpResponse :=
  { status := 200, statusText := "OK", sessionHeader := none
    result := "success", arguments := some wOkPayload }

/-- A 200 response whose RPC-level result is not "success". -/
def wRpcErrResp : HttpResponse :=
  { status := 200, statusText := "OK", sessionHeader := none
    result := "no method name", arguments := none }

/-- A 409 conflict response carrying a fresh session token. -/
def wConflictResp : HttpResponse :=
  { status := 409, statusText := "Conflict", sessionHeader := some "T1"
    result := "", arguments := none }

/-- Client state: attempt 1 fails at RPC level, attempt 2 succeeds. -/
def stC3 : ClientState :=
  { sessionId := none
    net := [FetchOutcome.responds wRpcErrResp, FetchOutcome.responds wOkResp] }

/-- Client state: one RPC-level failure then nothing. -/
def stC3W : ClientState :=
  { sessionId := none, net := [FetchOutcome.responds wRpcErrResp] }

/-- Client state for the session-negotiation scenario. -/
def stC4 : ClientState :=
  { sessionId := none
    net := [FetchOutcome.responds wConflictResp, FetchOutcome.responds wOkResp] }

/-- 29 connectivity-failure messages. -/
def wConnMsgs : List String :=
  List.replicate 29 "connect ECONNREFUSED 127.0.0.1:9091"

/-! ## Helper lemmas about the three rules -/

theorem checkRatioRule_shape (cfg : Config) (t : Torrent) :
    checkRatioRule cfg t = none ∨
      checkRatioRule cfg t = some { torrent := t, reason := RemovalReason.ratio } := by
  unfold checkRatioRule
  split <;> simp

theorem checkDeadRule_shape (cfg : Config) (t : Torrent) :
    checkDeadRule cfg t = none ∨
      checkDeadRule cfg t = some { torrent := t, reason := RemovalReason.dead } := by
  unfold checkDeadRule
  dsimp only
  split <;> simp

theorem checkTtlRule_shape (cfg : Config) (t : Torrent) :
    checkTtlRule cfg t = none ∨
      checkTtlRule cfg t = some { torrent := t, reason := RemovalReason.ttl } := by
  unfold checkTtlRule
  split <;> simp

/-- C1: evaluate attributes at most one removal reason per torrent, and when
more than one of the three rules matches, the reason reported is the first in
the precedence order ratio, dead, ttl; a later rule never overrides an
earlier match. -/
theorem c1_evaluate_precedence (cfg : Config) (t : Torrent) :
    (evaluate cfg t).length ≤ 1 ∧
    ((checkRatioRule cfg t).isSome →
      evaluate cfg t = [{ torrent := t, reason := RemovalReason.ratio }]) ∧
    (checkRatioRule cfg t = none → (checkDeadRule cfg t).isSome →
      evaluate cfg t = [{ torrent := t, reason := RemovalReason.dead }]) ∧
    (checkRatioRule cfg t = none → checkDeadRule cfg t = none →
      (checkTtlRule cfg t).isSome →
      evaluate cfg t = [{ torrent := t, reason := RemovalReason.ttl }]) := by
  unfold evaluate
  rcases checkRatioRule_shape cfg t with hr | hr <;>
    rcases checkDeadRule_shape cfg t with hd | hd <;>
      rcases checkTtlRule_shape cfg t with ht | ht <;>
        simp [hr, hd, ht, Option.orElse]

theorem c1_evaluate_precedence_witness :
    evaluate wcfg wtorrentAll =
      [{ torrent := wtorrentAll, reason := RemovalReason.ratio }] :=
  (c1_evaluate_precedence wcfg wtorrentAll).2.1 (by decide)

/-- C2 counterexample: a torrent whose uploadRatio is exactly equal to
maxRatio (both -1) does NOT match the ratio rule, refuting the claim that a
torrent with uploadRatio exactly equal to maxRatio always matches. -/
theorem c2_counterexample :
    tNegRatio.uploadRatio = cfgNegRatio.maxRatio ∧
    checkRatioRule cfgNegRatio tNegRatio = none := by
  constructor
  · rfl
  · decide

/-- C2 (amended): the ratio rule matches exactly when uploadRatio is not -1
and uploadRatio is at least maxRatio; a torrent with uploadRatio -1 never
matches regardless of maxRatio; and a torrent with uploadRatio exactly equal
to maxRatio matches provided its uploadRatio is not the -1 sentinel. -/
theorem c2_ratio_rule_spec (cfg : Config) (t : Torrent) :
    ((checkRatioRule cfg t).isSome ↔
      (t.uploadRatio ≠ -1 ∧ cfg.maxRatio ≤ t.uploadRatio)) ∧
    (t.uploadRatio = -1 → checkRatioRule cfg t = none) ∧
    (t.uploadRatio = cfg.maxRatio → t.uploadRatio ≠ -1 →
      (checkRatioRule cfg t).isSome) := by
  unfold checkRatioRule
  refine ⟨?_, ?_, ?_⟩
  · split
    · next h =>
      simp only [Option.isSome_none, Bool.false_eq_true, false_iff]
      rcases h with h | h
      · intro hc
        exact hc.1 h
      · intro hc
        exact absurd hc.2 (not_le.mpr h)
    · next h =>
      push_neg at h
      simp [h.1, h.2]
  · intro h
    simp [h]
  · intro heq hne
    split
    · next h =>
      rcases h with h | h
      · exact absurd h hne
      · exact absurd (le_of_eq heq.symm) (not_le.mpr h)
    · simp

theorem c2_ratio_rule_spec_witness :
    (checkRatioRule wcfg { wtorrentAll with uploadRatio := 2 }).isSome :=
  (c2_ratio_rule_spec wcfg { wtorrentAll with uploadRatio := 2 }).2.2
    (by decide) (by decide)

/-! ## Helper lemmas about the eligibility pipeline -/

theorem filterE_ok {α ε : Type} [DecidableEq ε] (p : α → Except ε Bool) :
    ∀ (l res : List α), filterE p l = Except.ok res →
      res = l.filter fun a => decide (p a = Except.ok true)
  | [], res, h => by
      simpa [filterE] using h.symm
  | a :: as, res, h => by
      rcases hb : p a with e | b
      · simp [filterE, hb, bind, Except.bind] at h
      · rcases hrest : filterE p as with e | rest
        · simp [filterE, hb, hrest, bind, Except.bind] at h
        · have hih := filterE_ok p as rest hrest
          simp only [filterE, hb, hrest, bind, Except.bind, pure, Except.pure,
            Except.ok.injEq] at h
          cases b <;> simp_all [List.filter]

theorem filterE_all_true {α ε : Type} (p : α → Except ε Bool) :
    ∀ l : List α, (∀ a ∈ l, p a = Except.ok true) → filterE p l = Except.ok l
  | [], _ => by simp [filterE]
  | a :: as, h => by
      have ha := h a (by simp)
      have hih := filterE_all_true p as fun b hb => h b (by simp [hb])
      simp [filterE, ha, hih, bind, Except.bind, pure, Except.pure]

/-- The callback the tracker-exclusion filter passes to Array.filter returns
ok true exactly when hasExcludedTracker returns ok false. -/
theorem trackerKeepPred_eq (cfg : Config) (t : Torrent) :
    ((do
        let ex ← hasExcludedTracker cfg t
        pure (!ex) : Except String Bool) = Except.ok true) ↔
      hasExcludedTracker cfg t = Except.ok false := by
  rcases h : hasExcludedTracker cfg t with e | b
  · simp [h, bind, Except.bind]
  · cases b <;> simp [h, bind, Except.bind, pure, Except.pure]

/-- C6: a run's eligible set is exactly the fetched torrents whose
lower-cased label is in the allow-list and which no excluded-tracker token
matches; an empty allow-list is fail-closed; an empty exclusion list
excludes nothing. -/
theorem c6_eligibility_filter :
    (∀ (cfg : Config) (ts es : List Torrent), eligibleSet cfg ts = Except.ok es →
      ∀ t : Torrent, t ∈ es ↔
        (t ∈ ts ∧ cfg.allowedLabels.contains (toLowerStr t.label) = true ∧
          hasExcludedTracker cfg t = Except.ok false)) ∧
    (∀ (cfg : Config) (ts : List Torrent), cfg.allowedLabels = [] →
      eligibleSet cfg ts = Except.ok []) ∧
    (∀ (cfg : Config) (t : Torrent), cfg.excludedTrackers = [] →
      hasExcludedTracker cfg t = Except.ok false) ∧
    (∀ (cfg : Config) (ts : List Torrent), cfg.excludedTrackers = [] →
      eligibleSet cfg ts = Except.ok (ts.filter (isAllowedLabel cfg))) := by
  have hEmptyEx : ∀ (cfg : Config) (t : Torrent), cfg.excludedTrackers = [] →
      hasExcludedTracker cfg t = Except.ok false := by
    intro cfg t h
    simp [hasExcludedTracker, h]
  refine ⟨?_, ?_, hEmptyEx, ?_⟩
  · intro cfg ts es h t
    have hes := filterE_ok _ _ _ h
    subst hes
    constructor
    · intro hmem
      have h1 := List.mem_filter.mp hmem
      have h2 := List.mem_filter.mp h1.1
      refine ⟨h2.1, ?_, ?_⟩
      · simpa [isAllowedLabel] using h2.2
      · exact (trackerKeepPred_eq cfg t).mp (by simpa using h1.2)
    · rintro ⟨hmem, hlab, hex⟩
      refine List.mem_filter.mpr ⟨List.mem_filter.mpr ⟨hmem, ?_⟩, ?_⟩
      · simpa [isAllowedLabel] using hlab
      · simpa using (trackerKeepPred_eq cfg t).mpr hex
  · intro cfg ts h
    have : ts.filter (isAllowedLabel cfg) = [] := by
      simp [isAllowedLabel, h, List.filter_eq_nil_iff]
    simp [eligibleSet, this, filterE]
  · intro cfg ts h
    unfold eligibleSet
    exact filterE_all_true _ _ fun t _ =>
      (trackerKeepPred_eq cfg t).mpr (hEmptyEx cfg t h)

theorem c6_eligibility_filter_witness :
    eligibleSet { wcfg with allowedLabels := [] } [wtorrentAll] = Except.ok [] ∧
    eligibleSet wcfg [wtorrentAll] = Except.ok [wtorrentAll] := by
  constructor
  · exact c6_eligibility_filter.2.1 { wcfg with allowedLabels := [] } [wtorrentAll] rfl
  · have h := c6_eligibility_filter.2.2.2 wcfg [wtorrentAll] rfl
    simpa using h

/-- When the eligibility pipeline succeeds, runRemoveCalls reduces to the
candidate-count test followed by performRemoval. -/
theorem runRemoveCalls_ok (cfg : Config) (hydrated es : List Torrent)
    (h : eligibleSet cfg hydrated = Except.ok es) :
    runRemoveCalls cfg hydrated =
      Except.ok
        (if ((es.map (evaluate cfg)).flatten).length = 0 then []
         else performRemoval cfg
           (((es.map (evaluate cfg)).flatten).map fun c => c.torrent.id)) := by
  unfold runRemoveCalls
  rw [h]
  simp only [bind, Except.bind, pure, Except.pure]
  split <;> rfl

/-- C7: with at least one candidate, a dry run issues no removeTorrents call
and a non-dry run issues exactly one call carrying exactly the candidate ids
and requesting local-data deletion. -/
theorem c7_removal_side_effect (cfg : Config) (hydrated es : List Torrent)
    (h : eligibleSet cfg hydrated = Except.ok es)
    (hn : 1 ≤ ((es.map (evaluate cfg)).flatten).length) :
    (cfg.dryRun = true → runRemoveCalls cfg hydrated = Except.ok []) ∧
    (cfg.dryRun = false → runRemoveCalls cfg hydrated =
      Except.ok [{ ids := ((es.map (evaluate cfg)).flatten).map fun c => c.torrent.id
                   deleteLocalData := true }]) := by
  have hlen : ¬ ((es.map (evaluate cfg)).flatten).length = 0 := by omega
  rw [runRemoveCalls_ok cfg hydrated es h, if_neg hlen]
  constructor <;> intro hd <;> simp [performRemoval, hd]

theorem c7_removal_side_effect_witness :
    runRemoveCalls wcfg [wtorrentAll] =
      Except.ok [{ ids := [(7 : Int)], deleteLocalData := true }] := by
  have h := (c7_removal_side_effect wcfg [wtorrentAll] [wtorrentAll]
    (by decide) (by decide)).2 rfl
  simpa using h

/-- C10: when the rule engine yields zero candidates, run issues no
removeTorrents call at all, whatever the dry-run flag, and returns
successfully. -/
theorem c10_zero_candidates_no_removal (cfg : Config) (hydrated es : List Torrent)
    (h : eligibleSet cfg hydrated = Except.ok es)
    (hz : (es.map (evaluate cfg)).flatten = []) :
    runRemoveCalls cfg hydrated = Except.ok [] := by
  rw [runRemoveCalls_ok cfg hydrated es h, if_pos (by rw [hz]; rfl)]

theorem c10_zero_candidates_no_removal_witness :
    runRemoveCalls wcfg [wtorrentFresh] = Except.ok [] :=
  c10_zero_candidates_no_removal wcfg [wtorrentFresh] [wtorrentFresh]
    (by decide) (by decide)

/-- C8 counterexample: with a nonempty exclusion list and a torrent whose
trackerUrls contain the unparsable empty string, hasExcludedTracker still
returns an eligibility decision (true) rather than throwing, because an
earlier URL already matched an excluded token. -/
theorem c8_counterexample :
    wcfgEx.excludedTrackers ≠ [] ∧
    tMaskedBadUrl.trackerUrls.contains "" = true ∧
    urlHostname "" = none ∧
    hasExcludedTracker wcfgEx tMaskedBadUrl = Except.ok true := by
  refine ⟨by decide, by decide, by decide, by decide⟩

theorem hasExcludedTrackerLoop_error (cfg : Config) :
    ∀ (pre : List String) (bad : String) (post : List String),
      urlHostname bad = none →
      (∀ u ∈ pre, ∃ hn, urlHostname u = some hn ∧
        cfg.excludedTrackers.any (fun tok => strContains (toLowerStr hn) tok) = false) →
      hasExcludedTrackerLoop cfg (pre ++ bad :: post) =
        Except.error ("Invalid URL: " ++ bad)
  | [], bad, post, hbad, _ => by
      simp [hasExcludedTrackerLoop, hbad]
  | u :: pre, bad, post, hbad, hpre => by
      obtain ⟨hn, hu, hmiss⟩ := hpre u (by simp)
      have hih := hasExcludedTrackerLoop_error cfg pre bad post hbad
        fun v hv => hpre v (by simp [hv])
      simp [hasExcludedTrackerLoop, hu, hmiss, hih]

/-- C8 (amended): with a nonempty exclusion list, a trackerUrls entry that is
not a parsable URL makes hasExcludedTracker throw — and run propagate the
exception — provided no earlier URL in the list already matches an excluded
token; when an earlier URL matches, the check returns true before reaching
the unparsable entry. -/
theorem c8_amended_unparsable_url_throws (cfg : Config) (t : Torrent)
    (pre : List String) (bad : String) (post : List String)
    (hne : cfg.excludedTrackers ≠ [])
    (hsplit : t.trackerUrls = pre ++ bad :: post)
    (hbad : urlHostname bad = none)
    (hpre : ∀ u ∈ pre, ∃ hn, urlHostname u = some hn ∧
      cfg.excludedTrackers.any (fun tok => strContains (toLowerStr hn) tok) = false) :
    hasExcludedTracker cfg t = Except.error ("Invalid URL: " ++ bad) ∧
    ∀ (hydrated rest2 : List Torrent),
      hydrated.filter (isAllowedLabel cfg) = t :: rest2 →
      runRemoveCalls cfg hydrated = Except.error ("Invalid URL: " ++ bad) := by
  have hlen : ¬ cfg.excludedTrackers.length = 0 := by
    simpa [List.length_eq_zero] using hne
  have hthrow : hasExcludedTracker cfg t = Except.error ("Invalid URL: " ++ bad) := by
    unfold hasExcludedTracker
    rw [if_neg hlen, hsplit]
    exact hasExcludedTrackerLoop_error cfg pre bad post hbad hpre
  refine ⟨hthrow, ?_⟩
  intro hydrated rest2 hfilter
  unfold runRemoveCalls eligibleSet
  rw [hfilter]
  simp [filterE, hthrow, bind, Except.bind]

theorem c8_amended_unparsable_url_throws_witness :
    hasExcludedTracker wcfgEx tBadUrlFirst = Except.error "Invalid URL: " ∧
    runRemoveCalls wcfgEx [tBadUrlFirst] = Except.error "Invalid URL: " := by
  have h := c8_amended_unparsable_url_throws wcfgEx tBadUrlFirst []
    "" ["http://bad.example/announce"] (by decide) (by decide) (by decide)
    (by intro u hu; cases hu)
  exact ⟨h.1, h.2 [tBadUrlFirst] [] (by decide)⟩

/-! ## C9: the -1 ratio sentinel survives defaulting and hydration -/

/-- C9: the `|| 0` defaulting at fetch and at hydration maps a
daemon-reported uploadRatio of -1 to -1 (so the ratio rule never fires on
it), and maps an absent, null or 0 uploadRatio to 0. -/
theorem c9_ratio_sentinel_preserved (j : JsonTorrent) (now : Int) (cfg : Config) :
    (j.uploadRatio = some (-1) →
      (defaultTorrent j).uploadRatio = -1 ∧
      (hydrate now (defaultTorrent j)).uploadRatio = -1 ∧
      checkRatioRule cfg (hydrate now (defaultTorrent j)) = none) ∧
    (j.uploadRatio = none →
      (defaultTorrent j).uploadRatio = 0 ∧
      (hydrate now (defaultTorrent j)).uploadRatio = 0) ∧
    (j.uploadRatio = some 0 →
      (defaultTorrent j).uploadRatio = 0 ∧
      (hydrate now (defaultTorrent j)).uploadRatio = 0) := by
  refine ⟨?_, ?_, ?_⟩ <;> intro h
  · have hdef : (defaultTorrent j).uploadRatio = -1 := by
      simp [defaultTorrent, jsNumOr, h]
    have hhyd : (hydrate now (defaultTorrent j)).uploadRatio = -1 := by
      simp [hydrate, numOr, hdef]
    refine ⟨hdef, hhyd, ?_⟩
    unfold checkRatioRule
    rw [if_pos (Or.inl hhyd)]
  · have hdef : (defaultTorrent j).uploadRatio = 0 := by
      simp [defaultTorrent, jsNumOr, h]
    exact ⟨hdef, by simp [hydrate, numOr, hdef]⟩
  · have hdef : (defaultTorrent j).uploadRatio = 0 := by
      simp [defaultTorrent, jsNumOr, h]
    exact ⟨hdef, by simp [hydrate, numOr, hdef]⟩

theorem c9_ratio_sentinel_preserved_witness :
    (hydrate 3600 (defaultTorrent jSentinel)).uploadRatio = -1 ∧
    checkRatioRule wcfg (hydrate 3600 (defaultTorrent jSentinel)) = none :=
  ⟨((c9_ratio_sentinel_preserved jSentinel 3600 wcfg).1 (by decide)).2.1,
   ((c9_ratio_sentinel_preserved jSentinel 3600 wcfg).1 (by decide)).2.2⟩

/-! ## Helper lemmas about the client -/

theorem rpc_throws (sid : Option String) (m : String) (rest : List FetchOutcome) :
    rpc { sessionId := sid, net := FetchOutcome.throws m :: rest } =
      { res := Except.error (RpcError.fetchError m)
        state := { sessionId := sid, net := rest }
        sentTokens := [sid] } := by
  simp [rpc, rpcGo]

theorem rpc_ok_success (sid : Option String) (okR : HttpResponse)
    (rest : List FetchOutcome)
    (h200 : okR.status = 200) (hh : okR.sessionHeader = none)
    (hres : okR.result = "success") :
    rpc { sessionId := sid, net := FetchOutcome.responds okR :: rest } =
      { res := Except.ok okR.arguments
        state := { sessionId := sid, net := rest }
        sentTokens := [sid] } := by
  simp [rpc, rpcGo, h200, hh, hres, responseOk]

/-- Any failed attempt with fuel left is followed by a 1000 ms sleep and a
retry, whatever the error class. -/
theorem gtgo_error_step (f : Nat) (hf : f ≠ 0) (st : ClientState) (e : RpcError)
    (he : (rpc st).res = Except.error e) :
    getTorrentsGo (f + 1) st =
      { res := (getTorrentsGo f (rpc st).state).res
        state := (getTorrentsGo f (rpc st).state).state
        attempts := (getTorrentsGo f (rpc st).state).attempts + 1
        sleepsMs := 1000 :: (getTorrentsGo f (rpc st).state).sleepsMs } := by
  simp only [getTorrentsGo]
  rw [he]
  dsimp only
  split <;> simp [hf]

/-- On the last attempt (fuel 1), an error propagates unchanged. -/
theorem gtgo_last_attempt (st : ClientState) (e : RpcError)
    (he : (rpc st).res = Except.error e) :
    getTorrentsGo 1 st =
      { res := Except.error e, state := (rpc st).state
        attempts := 1, sleepsMs := [] } := by
  simp only [getTorrentsGo]
  rw [he]
  simp

/-- A run of failed transmissions followed by a successful response: the
loop returns the mapped payload after one attempt per failure plus one. -/
theorem gtgo_throws_then_ok (sid : Option String) (okR : HttpResponse)
    (h200 : okR.status = 200) (hh : okR.sessionHeader = none)
    (hres : okR.result = "success")
    (payload : TorrentGetPayload) (hargs : okR.arguments = some payload) :
    ∀ (msgs : List String) (f : Nat) (rest : List FetchOutcome),
      msgs.length < f →
      getTorrentsGo f
        { sessionId := sid
          net := msgs.map FetchOutcome.throws ++ FetchOutcome.responds okR :: rest } =
        { res := Except.ok ((jsListOr payload.torrents []).map defaultTorrent)
          state := { sessionId := sid, net := rest }
          attempts := msgs.length + 1
          sleepsMs := List.replicate msgs.length 1000 }
  | [], f, rest, hf => by
      match f, hf with
      | g + 1, _ =>
        rw [List.map_nil, List.nil_append]
        simp only [getTorrentsGo]
        rw [rpc_ok_success sid okR rest h200 hh hres]
        dsimp only
        rw [hargs]
        dsimp only
        rfl
  | m :: ms, f, rest, hf => by
      match f, hf with
      | g + 1, hfg =>
        have hg : ms.length < g := by
          simpa using hfg
        have hg0 : g ≠ 0 := by omega
        have hstep := gtgo_error_step g hg0
          { sessionId := sid
            net := (m :: ms).map FetchOutcome.throws ++ FetchOutcome.responds okR :: rest }
          (RpcError.fetchError m)
          (by rw [List.map_cons, List.cons_append, rpc_throws])
        rw [hstep, List.map_cons, List.cons_append, rpc_throws]
        dsimp only
        rw [gtgo_throws_then_ok sid okR h200 hh hres payload hargs ms g rest hg]
        rfl

/-- Every transmission failing: the loop makes exactly one attempt per fuel
unit, sleeps between attempts, and surfaces the error of the last one. -/
theorem gtgo_all_throws (sid : Option String) :
    ∀ (msgs : List String) (rest : List FetchOutcome),
      msgs ≠ [] →
      getTorrentsGo msgs.length
        { sessionId := sid, net := msgs.map FetchOutcome.throws ++ rest } =
        { res := Except.error (RpcError.fetchError (msgs.getLastD ""))
          state := { sessionId := sid, net := rest }
          attempts := msgs.length
          sleepsMs := List.replicate (msgs.length - 1) 1000 }
  | [], _, hne => absurd rfl hne
  | [m], rest, _ => by
      rw [show ([m] : List String).length = 1 from rfl]
      rw [gtgo_last_attempt _ (RpcError.fetchError m)
        (by rw [List.map_cons, List.map_nil, List.cons_append, rpc_throws])]
      rw [List.map_cons, List.map_nil, List.cons_append, rpc_throws]
      rfl
  | m :: m2 :: ms, rest, _ => by
      have hne2 : (m2 :: ms : List String) ≠ [] := by simp
      have hlen : (m :: m2 :: ms : List String).length = (m2 :: ms).length + 1 := rfl
      rw [hlen]
      have hstep := gtgo_error_step ((m2 :: ms : List String).length) (by simp)
        { sessionId := sid
          net := (m :: m2 :: ms).map FetchOutcome.throws ++ rest }
        (RpcError.fetchError m)
        (by rw [List.map_cons, List.cons_append, rpc_throws])
      rw [hstep, List.map_cons, List.cons_append, rpc_throws]
      dsimp only
      rw [gtgo_all_throws sid (m2 :: ms) rest hne2]
      have hlast : (m :: m2 :: ms : List String).getLastD "" = (m2 :: ms).getLastD "" := by
        simp [List.getLastD_eq_getLast?]
      rw [← hlast]
      simp [List.replicate_succ]

/-- C4: on a 409 the client captures the fresh token and retransmits the
same call with it, succeeding overall; every transmission carries the held
token; three straight 409s exhaust the 2-retransmission bound and fail the
negotiation, an error distinct from connectivity; and a token on any
non-conflict response header is captured into the held state. -/
theorem c4_session_token_negotiation :
    (∀ (st : ClientState) (r1 r2 : HttpResponse) (rest : List FetchOutcome) (tk : String),
      st.net = FetchOutcome.responds r1 :: FetchOutcome.responds r2 :: rest →
      r1.status = 409 → r1.sessionHeader = some tk →
      r2.status = 200 → r2.sessionHeader = none → r2.result = "success" →
      (rpc st).res = Except.ok r2.arguments ∧
      (rpc st).sentTokens = [st.sessionId, some tk] ∧
      (rpc st).state = { sessionId := some tk, net := rest }) ∧
    (∀ st2 : ClientState, (rpc st2).sentTokens.head? = some st2.sessionId) ∧
    (∀ (st : ClientState) (r1 r2 r3 : HttpResponse) (rest : List FetchOutcome),
      st.net = FetchOutcome.responds r1 :: FetchOutcome.responds r2 ::
        FetchOutcome.responds r3 :: rest →
      r1.status = 409 → r2.status = 409 → r3.status = 409 →
      (rpc st).res = Except.error RpcError.sessionNegotiationFailed ∧
      (rpc st).sentTokens.length = 3 ∧
      connectivityCheck RpcError.sessionNegotiationFailed.message = false) ∧
    (∀ (st : ClientState) (r : HttpResponse) (rest : List FetchOutcome) (tk : String),
      st.net = FetchOutcome.responds r :: rest →
      r.status ≠ 409 → r.sessionHeader = some tk →
      (rpc st).state.sessionId = some tk) := by
  refine ⟨?_, ?_, ?_, ?_⟩
  · intro st r1 r2 rest tk hnet h1 htk h2 hh2 hres2
    obtain ⟨sid, net⟩ := st
    simp only at hnet
    subst hnet
    simp [rpc, rpcGo, h1, htk, h2, hh2, hres2, responseOk]
  · intro st2
    obtain ⟨sid, net⟩ := st2
    cases net with
    | nil => simp [rpc, rpcGo]
    | cons o rest =>
      cases o with
      | throws m => simp [rpc, rpcGo]
      | responds r =>
        simp only [rpc, rpcGo]
        split
        · split <;> simp
        · split
          · simp
          · split <;> simp
  · intro st r1 r2 r3 rest hnet h1 h2 h3
    obtain ⟨sid, net⟩ := st
    simp only at hnet
    subst hnet
    refine ⟨?_, ?_, by decide⟩ <;>
      simp [rpc, rpcGo, h1, h2, h3]
  · intro st r rest tk hnet hr htk
    obtain ⟨sid, net⟩ := st
    simp only at hnet
    subst hnet
    have hb : (r.status == 409) = false := by simp [hr]
    show (rpcGo 2 _).state.sessionId = some tk
    rw [rpcGo]
    dsimp only
    rw [hb, if_neg Bool.false_ne_true]
    split
    · simp [hb, htk]
    · split <;> simp [hb, htk]

theorem c4_session_token_negotiation_witness :
    (rpc stC4).res = Except.ok (some wOkPayload) ∧
    (rpc stC4).sentTokens = [none, some "T1"] ∧
    (rpc stC4).state = { sessionId := some "T1", net := [] } := by
  have h := c4_session_token_negotiation.1 stC4 wConflictResp wOkResp [] "T1"
    rfl rfl rfl rfl rfl rfl
  exact ⟨h.1, h.2.1, h.2.2⟩

/-- C5: during getTorrents, connectivity-class failures are retried with a
fixed 1-second delay, up to 30 attempts total; a success on any attempt up
to the 30th returns the fetched list with no error after exactly one attempt
per failure plus one; 30 straight connectivity failures propagate the error
of the last attempt. -/
theorem c5_fetch_connectivity_retry :
    (∀ (sid : Option String) (okR : HttpResponse) (payload : TorrentGetPayload)
        (msgs : List String) (rest : List FetchOutcome),
      okR.status = 200 → okR.sessionHeader = none → okR.result = "success" →
      okR.arguments = some payload →
      (∀ m ∈ msgs, connectivityCheck (RpcError.fetchError m).message = true) →
      msgs.length < 30 →
      getTorrents
        { sessionId := sid,
          net := msgs.map FetchOutcome.throws ++ FetchOutcome.responds okR :: rest } =
        { res := Except.ok ((jsListOr payload.torrents []).map defaultTorrent)
          state := { sessionId := sid, net := rest }
          attempts := msgs.length + 1
          sleepsMs := List.replicate msgs.length 1000 }) ∧
    (∀ (sid : Option String) (msgs : List String) (rest : List FetchOutcome),
      msgs.length = 30 →
      (∀ m ∈ msgs, connectivityCheck (RpcError.fetchError m).message = true) →
      getTorrents { sessionId := sid, net := msgs.map FetchOutcome.throws ++ rest } =
        { res := Except.error (RpcError.fetchError (msgs.getLastD ""))
          state := { sessionId := sid, net := rest }
          attempts := 30
          sleepsMs := List.replicate 29 1000 }) := by
  constructor
  · intro sid okR payload msgs rest h200 hh hres hargs _ hlt
    exact gtgo_throws_then_ok sid okR h200 hh hres payload hargs msgs 30 rest hlt
  · intro sid msgs rest hlen _
    have hne : msgs ≠ [] := by
      intro h
      rw [h] at hlen
      simp at hlen
    have h := gtgo_all_throws sid msgs rest hne
    rw [hlen] at h
    exact h

theorem c5_fetch_connectivity_retry_witness :
    getTorrents
      { sessionId := none,
        net := wConnMsgs.map FetchOutcome.throws ++ [FetchOutcome.responds wOkResp] } =
      { res := Except.ok []
        state := { sessionId := none, net := [] }
        attempts := 30
        sleepsMs := List.replicate 29 1000 } ∧
    getTorrents
      { sessionId := none,
        net := (wConnMsgs ++ ["getaddrinfo ENOTFOUND transmission"]).map FetchOutcome.throws } =
      { res := Except.error (RpcError.fetchError "getaddrinfo ENOTFOUND transmission")
        state := { sessionId := none, net := [] }
        attempts := 30
        sleepsMs := List.replicate 29 1000 } := by
  constructor
  · have h := c5_fetch_connectivity_retry.1 none wOkResp wOkPayload wConnMsgs []
      rfl rfl rfl rfl (by decide) (by decide)
    simpa using h
  · have h := c5_fetch_connectivity_retry.2 none
      (wConnMsgs ++ ["getaddrinfo ENOTFOUND transmission"]) []
      (by decide) (by decide)
    simpa using h

/-- C3 counterexample: attempt 1 of a fetch fails with a non-connectivity
RPC-level error ("RPC error: no method name"), yet getTorrents does not
propagate it — it sleeps, retries, and returns the success of attempt 2. -/
theorem c3_counterexample :
    (rpc stC3).res = Except.error (RpcError.rpcResultError "no method name") ∧
    connectivityCheck (RpcError.rpcResultError "no method name").message = false ∧
    (getTorrents stC3).res = Except.ok [] ∧
    (getTorrents stC3).attempts = 2 ∧
    (getTorrents stC3).sleepsMs = [1000] := by
  refine ⟨by decide, by decide, by decide, by decide, by decide⟩

/-- C3 (amended): during a fetch, every error — non-connectivity ones
included — is retried with the fixed 1-second delay while attempts remain;
an error propagates to the caller only from the final (30th) attempt. -/
theorem c3_error_class_retry (st : ClientState) (e : RpcError)
    (he : (rpc st).res = Except.error e) :
    (∀ f : Nat, f ≠ 0 →
      getTorrentsGo (f + 1) st =
        { res := (getTorrentsGo f (rpc st).state).res
          state := (getTorrentsGo f (rpc st).state).state
          attempts := (getTorrentsGo f (rpc st).state).attempts + 1
          sleepsMs := 1000 :: (getTorrentsGo f (rpc st).state).sleepsMs }) ∧
    getTorrentsGo 1 st =
      { res := Except.error e, state := (rpc st).state
        attempts := 1, sleepsMs := [] } := by
  exact ⟨fun f hf => gtgo_error_step f hf st e he, gtgo_last_attempt st e he⟩

theorem c3_error_class_retry_witness :
    getTorrentsGo 1 stC3W =
      { res := Except.error (RpcError.rpcResultError "no method name")
        state := (rpc stC3W).state, attempts := 1, sleepsMs := [] } :=
  (c3_error_class_retry stC3W (RpcError.rpcResultError "no method name")
    (by decide)).2

end TransmissionDH
